import Mathlib

/-!
Shallow embedding of `src/api/deploy.js` (Vercel deployment endpoint):
name sanitization, project resolution with 409 fallback, deployment
payload construction, readiness polling, and the orchestrating handler.
Remote HTTP interactions are modelled as oracle responses supplied in the
environment; the JavaScript control flow is translated statement by
statement.
-/

/-- JavaScript `String.prototype.toLowerCase`, modelled on the ASCII
range (the only range relevant to `[a-z0-9-]` name sanitization). -/
def jsLower (c : Char) : Char :=
  if 'A' ≤ c ∧ c ≤ 'Z' then Char.ofNat (c.toNat + 32) else c

/-- Membership in the character class `[a-z0-9-]` of the regex at
`deploy.js:48`. -/
def isNameChar (c : Char) : Bool :=
  ('a' ≤ c && c ≤ 'z') || ('0' ≤ c && c ≤ '9') || c == '-'

/-- One character step of `.replace(/[^a-z0-9-]/g, '-')`. -/
def replaceChar (c : Char) : Char :=
  if isNameChar c then c else '-'

/-- The second replace of the sanitizer (regex `-+`, global): collapse
every run of consecutive dashes to a single dash. -/
def collapseDashes : List Char → List Char
  | [] => []
  | [c] => [c]
  | a :: b :: rest =>
    if a = '-' ∧ b = '-' then collapseDashes (b :: rest)
    else a :: collapseDashes (b :: rest)

/-- The sanitizer pipeline of `deploy.js:46-50`: lowercase, then replace
each character outside `[a-z0-9-]` with a dash, then collapse dash runs,
then `substring(0, 50)`. -/
def sanitize (s : String) : String :=
  ⟨(collapseDashes ((s.data.map jsLower).map replaceChar)).take 50⟩

/-- Scanner for two consecutive dashes (used to state the invariant that
sanitized names contain no `--`). -/
def noConsecDash : List Char → Bool
  | a :: b :: rest => !(a == '-' && b == '-') && noConsecDash (b :: rest)
  | _ => true

/-- JavaScript `a || b` on an optional string (`undefined` and `""` are
falsy). -/
def jsOr (o : Option String) (d : String) : String :=
  match o with
  | none => d
  | some s => if s == "" then d else s

/-- JavaScript falsiness test `!x` for an optional string. -/
def jsFalsy (o : Option String) : Bool :=
  match o with
  | none => true
  | some s => s == ""

/-- Whether the list `pre` is an initial segment of the second list
(helper for JavaScript `String.prototype.includes`). -/
def leadsWith : List Char → List Char → Bool
  | [], _ => true
  | _ :: _, [] => false
  | p :: ps, c :: cs => p == c && leadsWith ps cs

/-- Whether `sub` occurs contiguously inside the second list (JavaScript
`String.prototype.includes` at the character level). -/
def containsSub (sub : List Char) : List Char → Bool
  | [] => sub.isEmpty
  | c :: rest => leadsWith sub (c :: rest) || containsSub sub rest

/-- The fields of a Vercel project that the endpoint consumes. -/
structure Project where
  id : String
  name : String
deriving DecidableEq

/-- The fields of a Vercel deployment that the endpoint consumes. -/
structure Deployment where
  id : String
  url : String
  readyState : String
  errorMessage : Option String
deriving DecidableEq

/-- A remote HTTP response as observed by the endpoint: status code, the
parsed JSON body (when consumed with `.json()`), and the raw text (when
consumed with `.text()`). -/
structure ApiResp (α : Type) where
  status : Nat
  json : α
  text : String
deriving DecidableEq

/-- JavaScript `Response.ok`: status in the 2xx range. -/
def respOk {α : Type} (r : ApiResp α) : Bool :=
  decide (200 ≤ r.status ∧ r.status < 300)

/-- `createOrGetProject` of `deploy.js:85-128`: try to create the
project; on 2xx return it; on 409 fetch the existing project by name and
return it when that fetch is 2xx; otherwise fail with the creation
status and body, wrapped by the function's own catch. -/
def createOrGetProject (create get : ApiResp Project) : Except String Project :=
  if respOk create then .ok create.json
  else if create.status = 409 ∧ respOk get then .ok get.json
  else .error ("Project handling failed: " ++ "Failed to create/get project: "
    ++ toString create.status ++ " - " ++ create.text)

/-- Base64 alphabet. -/
def b64chars : List Char :=
  "ABCDEFGHIJKLMNOPQRSTUVWXYZabcdefghijklmnopqrstuvwxyz0123456789+/".data

/-- Character at a base64 alphabet index. -/
def b64char (n : Nat) : Char := b64chars.getD n '='

/-- Standard base64 encoding of a byte list
(`Buffer.from(x).toString('base64')`). -/
def base64Encode : List Nat → List Char
  | [] => []
  | [a] => [b64char (a / 4), b64char (a % 4 * 16), '=', '=']
  | [a, b] => [b64char (a / 4), b64char (a % 4 * 16 + b / 16), b64char (b % 16 * 4), '=']
  | a :: b :: c :: rest =>
    b64char (a / 4) :: b64char (a % 4 * 16 + b / 16) :: b64char (b % 16 * 4 + c / 64)
      :: b64char (c % 64) :: base64Encode rest

/-- UTF-8 encoding of one character (how `Buffer.from` turns the page
text into bytes). -/
def utf8Char (c : Char) : List Nat :=
  let v := c.toNat
  if v < 128 then [v]
  else if v < 2048 then [192 + v / 64, 128 + v % 64]
  else if v < 65536 then [224 + v / 4096, 128 + v / 64 % 64, 128 + v % 64]
  else [240 + v / 262144, 128 + v / 4096 % 64, 128 + v / 64 % 64, 128 + v % 64]

/-- UTF-8 encoding of a whole string. -/
def utf8Str (s : String) : List Nat := (s.data.map utf8Char).flatten

/-- The template literal of `deploy.js:134-200`: the generated single
static page, parameterized by the site name, the resolved project name
and the rendered submission timestamp. -/
def htmlContent (siteName projName dateStr : String) : String :=
  "\n<!DOCTYPE html>\n<html lang=\"id\">\n<head>\n    <meta charset=\"UTF-8\">\n"
  ++ "    <meta name=\"viewport\" content=\"width=device-width, initial-scale=1.0\">\n"
  ++ "    <title>" ++ siteName ++ "</title>\n    <style>\n"
  ++ "        * \x7b margin: 0; padding: 0; box-sizing: border-box; \x7d\n"
  ++ "        body \x7b \n"
  ++ "            font-family: \x27Segoe UI\x27, Tahoma, Geneva, Verdana, sans-serif;\n"
  ++ "            background: linear-gradient(135deg, #667eea 0%, #764ba2 100%);\n"
  ++ "            min-height: 100vh;\n            display: flex;\n"
  ++ "            align-items: center;\n            justify-content: center;\n"
  ++ "            color: white;\n            text-align: center;\n"
  ++ "            padding: 20px;\n        \x7d\n        .container \x7b\n"
  ++ "            background: rgba(255,255,255,0.1);\n"
  ++ "            backdrop-filter: blur(10px);\n            padding: 50px;\n"
  ++ "            border-radius: 20px;\n"
  ++ "            box-shadow: 0 20px 40px rgba(0,0,0,0.1);\n"
  ++ "            max-width: 600px;\n        \x7d\n        h1 \x7b \n"
  ++ "            font-size: 3em; \n            margin-bottom: 20px;\n"
  ++ "            background: linear-gradient(135deg, #fff, #e2e8f0);\n"
  ++ "            -webkit-background-clip: text;\n"
  ++ "            -webkit-text-fill-color: transparent;\n        \x7d\n"
  ++ "        p \x7b \n            font-size: 1.3em; \n"
  ++ "            margin-bottom: 15px;\n            opacity: 0.9;\n        \x7d\n"
  ++ "        .deploy-info \x7b\n            background: rgba(255,255,255,0.2);\n"
  ++ "            padding: 20px;\n            border-radius: 10px;\n"
  ++ "            margin-top: 30px;\n        \x7d\n    </style>\n</head>\n<body>\n"
  ++ "    <div class=\"container\">\n"
  ++ "        <h1>🚀 " ++ siteName ++ "</h1>\n"
  ++ "        <p>Selamat! Website Anda berhasil di-deploy!</p>\n"
  ++ "        <p>Dibuat dengan <strong>Vercel Instant Deployer</strong></p>\n"
  ++ "        \n        <div class=\"deploy-info\">\n"
  ++ "            <p><strong>Project:</strong> " ++ projName ++ "</p>\n"
  ++ "            <p><strong>Deployment Date:</strong> " ++ dateStr ++ "</p>\n"
  ++ "            <p><strong>Status:</strong> ✅ Live & Ready</p>\n"
  ++ "        </div>\n        \n"
  ++ "        <p style=\"margin-top: 30px; font-size: 1em; opacity: 0.7;\">\n"
  ++ "            Upload file HTML, CSS, dan JS Anda melalui Vercel Instant Deployer untuk mengganti halaman ini.\n"
  ++ "        </p>\n    </div>\n</body>\n</html>\n    "

/-- One file entry of the deployment payload. -/
structure FileEntry where
  file : String
  data : String
  encoding : String
deriving DecidableEq

/-- The body POSTed to the deployments endpoint (`deploy.js:202-217`). -/
structure DeploymentPayload where
  name : String
  project : String
  target : String
  files : List FileEntry
  framework : String
  buildCommand : Option String
  outputDirectory : Option String
  installCommand : Option String
deriving DecidableEq

/-- The payload built inside `createDeployment` (`deploy.js:202-217`):
one base64-encoded `index.html` entry, production target, static
framework, no build, output or install commands. -/
def deploymentPayload (project : Project) (siteName dateStr : String) : DeploymentPayload :=
  { name := project.name
    project := project.id
    target := "production"
    files := [{ file := "index.html"
                data := ⟨base64Encode (utf8Str (htmlContent siteName project.name dateStr))⟩
                encoding := "base64" }]
    framework := "static"
    buildCommand := none
    outputDirectory := none
    installCommand := none }

/-- The response handling of `createDeployment` (`deploy.js:219-237`):
2xx returns the parsed deployment, anything else fails with the status
and body, wrapped by the function's own catch. -/
def createDeployment (resp : ApiResp Deployment) : Except String Deployment :=
  if respOk resp then .ok resp.json
  else .error ("Deployment failed: " ++ "Deployment creation failed: "
    ++ toString resp.status ++ " - " ++ resp.text)

/-- What one iteration of the polling loop observes: either the status
check itself failed (non-2xx), or a deployment JSON was obtained. -/
inductive PollResult where
  | httpFail (status : Nat)
  | state (d : Deployment)
deriving DecidableEq

/-- `waitForDeploymentReady` of `deploy.js:241-294`. The list holds the
poll results of attempts `1..maxAttempts` (its length is the attempt
budget); `fallback` is the `deploymentUrl` argument. Returns the
outcome together with the number of status queries performed and the
number of 2-second suspensions performed. Control flow mirrors the
source exactly: a non-ok status check `continue`s (skipping the delay);
the throws of the `ERROR` and `CANCELED` branches are caught by the
loop's own catch block, which swallows them on every attempt but the
last, and on the last attempt returns the fallback URL when one is
present, else rethrows as a timeout; a clean run past the loop throws
the maximum-attempts timeout. -/
def waitForDeploymentReady (fallback : String) : List PollResult → Except String String × Nat × Nat
  | [] => (.error "Deployment timeout: Maximum attempts reached", 0, 0)
  | r :: rest =>
    match r with
    | .httpFail _ =>
      -- `continue`: the attempt is spent, no delay happens;
      -- if this was the last attempt the loop exits to the final throw.
      let (o, q, d) := waitForDeploymentReady fallback rest
      (o, q + 1, d)
    | .state dep =>
      if dep.readyState = "READY" then
        (.ok ("https://" ++ dep.url), 1, 0)
      else if dep.readyState = "ERROR" then
        if rest.isEmpty then
          if fallback = "" then
            (.error ("Deployment timeout: " ++ ("Deployment failed: "
              ++ jsOr dep.errorMessage "Unknown error")), 1, 0)
          else (.ok ("https://" ++ fallback), 1, 0)
        else
          let (o, q, d) := waitForDeploymentReady fallback rest
          (o, q + 1, d)
      else if dep.readyState = "CANCELED" then
        if rest.isEmpty then
          if fallback = "" then
            (.error ("Deployment timeout: " ++ "Deployment was canceled"), 1, 0)
          else (.ok ("https://" ++ fallback), 1, 0)
        else
          let (o, q, d) := waitForDeploymentReady fallback rest
          (o, q + 1, d)
      else
        -- non-terminal state: wait 2 seconds, then the next attempt
        let (o, q, d) := waitForDeploymentReady fallback rest
        (o, q + 1, d + 1)

/-- Error message of the missing-token check (`deploy.js:23-25`). -/
def tokenMsg : String :=
  "DAWG_TOKEN environment variable is not set. Please add your Vercel token in environment variables."

/-- Error message of the content-type check (`deploy.js:30-32`). -/
def contentTypeMsg : String := "Content-Type must be multipart/form-data"

/-- Error message of the project-name validation (`deploy.js:39-44`). -/
def nameRequiredMsg : String := "Project name is required"

/-- One request as the handler sees it: the inbound fields plus oracle
responses for every remote interaction the run performs. -/
structure Env where
  method : String
  contentType : String
  token : Option String
  projectName : Option String
  siteName : Option String
  now : String
  createResp : ApiResp Project
  getResp : ApiResp Project
  deployResp : ApiResp Deployment
  polls : List PollResult
deriving DecidableEq

/-- The JSON body the handler sends back (`success` is absent on the
CORS/method responses, hence optional). -/
structure Resp where
  status : Nat
  success : Option Bool
  error : Option String
  url : Option String
  projectId : Option String
  deploymentId : Option String
  projectName : Option String
  siteName : Option String
deriving DecidableEq

/-- A response with the given status and no body fields set. -/
def blankResp (st : Nat) : Resp :=
  { status := st, success := none, error := none, url := none, projectId := none,
    deploymentId := none, projectName := none, siteName := none }

/-- The catch-block response of `deploy.js:75-81`. -/
def errResp (m : String) : Resp :=
  { blankResp 500 with success := some false, error := some m }

/-- The request handler of `deploy.js:4-82` (the polling variant). The
thrown errors of the try block all land in the single catch at line 75,
so the try/catch is rendered as the corresponding if/match cascade. The
deployment payload itself is `deploymentPayload`; only the oracle
response to that POST is consumed here. -/
def handler (env : Env) : Resp :=
  if env.method = "OPTIONS" then blankResp 200
  else if env.method ≠ "POST" then { blankResp 405 with error := some "Method not allowed" }
  else if jsFalsy env.token then errResp tokenMsg
  else if !containsSub "multipart/form-data".data env.contentType.data then errResp contentTypeMsg
  else if jsFalsy env.projectName then
    { blankResp 400 with success := some false, error := some nameRequiredMsg }
  else
    let clean := sanitize (env.projectName.getD "")
    match createOrGetProject env.createResp env.getResp with
    | .error m => errResp m
    | .ok project =>
      match createDeployment env.deployResp with
      | .error m => errResp m
      | .ok deployment =>
        match (waitForDeploymentReady deployment.url env.polls).1 with
        | .error m => errResp m
        | .ok finalUrl =>
          { status := 200, success := some true, error := none,
            url := some finalUrl, projectId := some project.id,
            deploymentId := some deployment.id, projectName := some clean,
            siteName := some (jsOr env.siteName clean) }

/-- The failure conditions of the handler's steps, with the message each
one produces (configuration check, content-type check, validation,
project resolution, deployment submission, readiness polling). -/
inductive StepFailure (env : Env) : String → Prop where
  | config (h : jsFalsy env.token = true) : StepFailure env tokenMsg
  | badContentType (h : containsSub "multipart/form-data".data env.contentType.data = false) :
      StepFailure env contentTypeMsg
  | validation (h : jsFalsy env.projectName = true) : StepFailure env nameRequiredMsg
  | projectStep (m : String)
      (h : createOrGetProject env.createResp env.getResp = .error m) : StepFailure env m
  | deployStep (m : String) (h : createDeployment env.deployResp = .error m) : StepFailure env m
  | pollStep (d : Deployment) (m : String) (hd : createDeployment env.deployResp = .ok d)
      (h : (waitForDeploymentReady d.url env.polls).1 = .error m) : StepFailure env m

/-- A deployment already in the `READY` state. -/
def dreadyEx : Deployment :=
  { id := "dep1", url := "site.example", readyState := "READY", errorMessage := none }

/-- A deployment in the `ERROR` state with a platform error message. -/
def derrEx : Deployment :=
  { id := "dep1", url := "err.example", readyState := "ERROR", errorMessage := some "Build crashed" }

/-- A deployment still building. -/
def dbuildEx : Deployment :=
  { id := "dep1", url := "b.example", readyState := "BUILDING", errorMessage := none }

/-- A resolved project. -/
def projEx : Project := { id := "prj_1", name := "my-site" }

/-- A well-formed request whose `projectName` is a single space, with
oracles that let every remote step succeed. -/
def envWSEx : Env :=
  { method := "POST", contentType := "multipart/form-data; boundary=x",
    token := some "tok", projectName := some " ", siteName := none, now := "1/1/2026",
    createResp := { status := 200, json := projEx, text := "" },
    getResp := { status := 404, json := projEx, text := "" },
    deployResp := { status := 200, json := dreadyEx, text := "" },
    polls := [.state dreadyEx] }

/-- A project-creation response with the conflict status. -/
def crConflictEx : ApiResp Project :=
  { status := 409, json := { id := "prj_new", name := "my-site" }, text := "conflict" }

/-- A successful fetch of the existing project. -/
def grOkEx : ApiResp Project := { status := 200, json := projEx, text := "" }

theorem collapse_cons (b : Char) (rest : List Char) :
    ∃ t, collapseDashes (b :: rest) = b :: t := by
  induction rest generalizing b with
  | nil => exact ⟨[], rfl⟩
  | cons c rs ih =>
    by_cases h : b = '-' ∧ c = '-'
    · obtain ⟨t, ht⟩ := ih c
      refine ⟨t, ?_⟩
      rw [show collapseDashes (b :: c :: rs) = collapseDashes (c :: rs) by
        simp [collapseDashes, h], ht, h.1, h.2]
    · exact ⟨collapseDashes (c :: rs), by simp [collapseDashes, h]⟩

theorem collapse_noConsec (l : List Char) : noConsecDash (collapseDashes l) = true := by
  induction l using collapseDashes.induct with
  | case1 => rfl
  | case2 c => rfl
  | case3 a b rest h ih =>
    simpa [collapseDashes, h] using ih
  | case4 a b rest h ih =>
    obtain ⟨t, ht⟩ := collapse_cons b rest
    rw [ht] at ih
    have hcol : collapseDashes (a :: b :: rest) = a :: b :: t := by
      simp [collapseDashes, h, ht]
    rw [hcol]
    have hnd : (!(a == '-' && b == '-')) = true := by
      rcases Bool.eq_false_or_eq_true (a == '-') with ha | ha <;>
        rcases Bool.eq_false_or_eq_true (b == '-') with hb | hb <;>
          simp_all [beq_iff_eq]
    simp [noConsecDash, hnd, ih]

theorem collapse_subset (l : List Char) (c : Char) (hc : c ∈ collapseDashes l) : c ∈ l := by
  induction l using collapseDashes.induct with
  | case1 =>
    simp [collapseDashes] at hc
  | case2 d =>
    simp [collapseDashes] at hc
    simp [hc]
  | case3 a b rest h ih =>
    rw [show collapseDashes (a :: b :: rest) = collapseDashes (b :: rest) by
      simp [collapseDashes, h]] at hc
    exact List.mem_cons_of_mem a (ih hc)
  | case4 a b rest h ih =>
    rw [show collapseDashes (a :: b :: rest) = a :: collapseDashes (b :: rest) by
      simp [collapseDashes, h]] at hc
    rcases List.mem_cons.mp hc with h1 | h1
    · exact h1 ▸ List.mem_cons_self a _
    · exact List.mem_cons_of_mem a (ih h1)

theorem noConsec_take (l : List Char) :
    ∀ n : Nat, noConsecDash l = true → noConsecDash (l.take n) = true := by
  induction l with
  | nil => intro n _; simp [List.take_nil]; rfl
  | cons a t ih =>
    intro n h
    cases n with
    | zero => rfl
    | succ m =>
      cases t with
      | nil => simp [List.take_nil]; rfl
      | cons b t' =>
        rw [noConsecDash, Bool.and_eq_true] at h
        cases m with
        | zero => rfl
        | succ k =>
          show noConsecDash (a :: b :: List.take k t') = true
          rw [noConsecDash, Bool.and_eq_true]
          exact ⟨h.1, ih (k + 1) h.2⟩

theorem replaceChar_valid (c : Char) : isNameChar (replaceChar c) = true := by
  by_cases h : isNameChar c = true
  · simp [replaceChar, h]
  · have h2 : replaceChar c = '-' := by simp [replaceChar, h]
    rw [h2]
    rfl

theorem collapse_eq_nil (l : List Char) : collapseDashes l = [] ↔ l = [] := by
  cases l with
  | nil => simp [collapseDashes]
  | cons b rest =>
    obtain ⟨t, ht⟩ := collapse_cons b rest
    simp [ht]

theorem map_all_dash (l : List Char) (h : ∀ c ∈ l, replaceChar (jsLower c) = '-') :
    (l.map jsLower).map replaceChar = List.replicate l.length '-' := by
  induction l with
  | nil => rfl
  | cons a t ih =>
    simp only [List.map_cons, List.length_cons, List.replicate_succ]
    rw [h a (List.mem_cons_self a t), ih (fun c hc => h c (List.mem_cons_of_mem a hc))]

theorem collapse_replicate (n : Nat) : collapseDashes (List.replicate (n + 1) '-') = ['-'] := by
  induction n with
  | zero => rfl
  | succ k ih =>
    have h2 : List.replicate (k + 1 + 1) '-' = '-' :: '-' :: List.replicate k '-' := by
      simp [List.replicate_succ]
    rw [h2, show collapseDashes ('-' :: '-' :: List.replicate k '-')
        = collapseDashes ('-' :: List.replicate k '-') by simp [collapseDashes]]
    rw [show ('-' :: List.replicate k '-') = List.replicate (k + 1) '-' by
      simp [List.replicate_succ]]
    exact ih

/-- Claim C4: every sanitized name uses only characters in `[a-z0-9-]`,
is at most 50 characters long, contains no two consecutive dashes, and
is computed as lowercase, then replacement of invalid characters by a
dash, then collapse of dash runs, then truncation to 50 — in that
order. -/
theorem spec_C4 (s : String) :
    sanitize s = ⟨(collapseDashes ((s.data.map jsLower).map replaceChar)).take 50⟩ ∧
    (sanitize s).data.all isNameChar = true ∧
    (sanitize s).length ≤ 50 ∧
    noConsecDash (sanitize s).data = true := by
  refine ⟨rfl, ?_, ?_, ?_⟩
  · rw [List.all_eq_true]
    intro c hc
    have h1 : c ∈ collapseDashes ((s.data.map jsLower).map replaceChar) :=
      List.take_subset _ _ hc
    have h2 := collapse_subset _ c h1
    obtain ⟨a, _, rfl⟩ := List.mem_map.mp h2
    exact replaceChar_valid a
  · show (List.take 50 _).length ≤ 50
    rw [List.length_take]
    exact Nat.min_le_left _ _
  · exact noConsec_take _ 50 (collapse_noConsec _)

/-- Claim C5: sanitizing `"My Cool Site!!!"` yields `"my-cool-site-"`,
through the intermediate forms `"my cool site!!!"` (lowercase),
`"my-cool-site---"` (replacement) and `"my-cool-site-"` (collapse). -/
theorem spec_C5 :
    String.mk ("My Cool Site!!!".data.map jsLower) = "my cool site!!!" ∧
    String.mk (("My Cool Site!!!".data.map jsLower).map replaceChar) = "my-cool-site---" ∧
    String.mk (collapseDashes (("My Cool Site!!!".data.map jsLower).map replaceChar))
      = "my-cool-site-" ∧
    sanitize "My Cool Site!!!" = "my-cool-site-" := by
  refine ⟨?_, ?_, ?_, ?_⟩ <;> decide

/-- Claim C10: the sanitized name is empty exactly when the raw input is
empty, and a non-empty input none of whose characters is in `[a-z0-9-]`
even after lowercasing (e.g. all symbols) sanitizes to `"-"`. -/
theorem spec_C10 (s : String) :
    (sanitize s = "" ↔ s = "") ∧
    ((s ≠ "" ∧ s.data.all (fun c => !(isNameChar (jsLower c))) = true) → sanitize s = "-") := by
  constructor
  · constructor
    · intro h
      have hd : (collapseDashes ((s.data.map jsLower).map replaceChar)).take 50 = [] :=
        congrArg String.data h
      have hnil : collapseDashes ((s.data.map jsLower).map replaceChar) = [] := by
        rcases List.take_eq_nil_iff.mp hd with h50 | hl
        · exact absurd h50 (by decide)
        · exact hl
      have hmap : (s.data.map jsLower).map replaceChar = [] := (collapse_eq_nil _).mp hnil
      have : s.data = [] := by simpa using hmap
      cases s with
      | mk d => simp_all
    · intro h
      rw [h]
      rfl
  · rintro ⟨hne, hall⟩
    have h1 : ∀ c ∈ s.data, replaceChar (jsLower c) = '-' := by
      intro c hc
      have h2 := List.all_eq_true.mp hall c hc
      have h3 : isNameChar (jsLower c) = false := by
        simpa using h2
      simp [replaceChar, h3]
    obtain ⟨a, t, hat⟩ : ∃ a t, s.data = a :: t := by
      cases hs : s.data with
      | nil =>
        exfalso
        apply hne
        cases s with
        | mk d => simp_all
      | cons a t => exact ⟨a, t, rfl⟩
    have h2 := map_all_dash s.data h1
    unfold sanitize
    rw [h2, hat, List.length_cons, collapse_replicate t.length]
    rfl

/-- Witness for claim C10 at the all-symbol input `"!!!"`. -/
theorem spec_C10_witness :
    (sanitize "!!!" = "" ↔ ("!!!" : String) = "") ∧ sanitize "!!!" = "-" :=
  ⟨(spec_C10 "!!!").1, (spec_C10 "!!!").2 ⟨by decide, by decide⟩⟩

/-- Claim C1 is refuted by the code: the throw of the `ERROR` branch is
caught by the polling loop's own catch block. Attempt 1 here reports
`ERROR` with a platform message, yet polling continues and the attempt-2
`READY` URL is returned; and when `ERROR` arrives on the final attempt
with no fallback URL, the message only surfaces wrapped in a timeout
error, never as an immediate `DeploymentFailed`. -/
theorem spec_C1 :
    waitForDeploymentReady "fallback.example" [.state derrEx, .state dreadyEx]
      = (.ok "https://site.example", 2, 0) ∧
    waitForDeploymentReady "" [.state derrEx]
      = (.error "Deployment timeout: Deployment failed: Build crashed", 1, 0) := by
  exact ⟨rfl, rfl⟩

/-- Claim C2 is refuted by the code: when every attempt cleanly reports
a non-terminal `BUILDING` state, the loop exits past its last iteration
and throws the maximum-attempts timeout without ever consulting the
supplied fallback URL. -/
theorem spec_C2 :
    waitForDeploymentReady "fallback.example"
      [.state dbuildEx, .state dbuildEx, .state dbuildEx]
      = (.error "Deployment timeout: Maximum attempts reached", 3, 3) := by
  exact rfl

theorem wait_cons_nonterminal (fb : String) (dep : Deployment) (rest : List PollResult)
    (hR : dep.readyState ≠ "READY") (hE : dep.readyState ≠ "ERROR")
    (hC : dep.readyState ≠ "CANCELED") :
    waitForDeploymentReady fb (.state dep :: rest)
      = ((waitForDeploymentReady fb rest).1, (waitForDeploymentReady fb rest).2.1 + 1,
         (waitForDeploymentReady fb rest).2.2 + 1) := by
  rcases hx : waitForDeploymentReady fb rest with ⟨o, q, d⟩
  simp [waitForDeploymentReady, hx, hR, hE, hC]

theorem wait_cons_ready (fb : String) (dep : Deployment) (rest : List PollResult)
    (h : dep.readyState = "READY") :
    waitForDeploymentReady fb (.state dep :: rest) = (.ok ("https://" ++ dep.url), 1, 0) := by
  simp [waitForDeploymentReady, h]

/-- Claim C6: with poll results `BUILDING, BUILDING, READY` the poller
returns `https://` prepended to the deployment's URL after exactly 3
status queries and exactly 2 inter-poll delays. -/
theorem spec_C6 (fb : String) (d1 d2 d3 : Deployment)
    (h1 : d1.readyState = "BUILDING") (h2 : d2.readyState = "BUILDING")
    (h3 : d3.readyState = "READY") :
    waitForDeploymentReady fb [.state d1, .state d2, .state d3]
      = (.ok ("https://" ++ d3.url), 3, 2) := by
  rw [wait_cons_nonterminal fb d1 _ (by rw [h1]; decide) (by rw [h1]; decide)
      (by rw [h1]; decide),
    wait_cons_nonterminal fb d2 _ (by rw [h2]; decide) (by rw [h2]; decide)
      (by rw [h2]; decide),
    wait_cons_ready fb d3 [] h3]

/-- Witness for claim C6 on concrete deployments. -/
theorem spec_C6_witness :
    waitForDeploymentReady "" [.state dbuildEx, .state dbuildEx, .state dreadyEx]
      = (.ok ("https://" ++ dreadyEx.url), 3, 2) :=
  spec_C6 "" dbuildEx dbuildEx dreadyEx rfl rfl rfl

/-- Claim C7: when project creation returns 409 and the follow-up fetch
of the project by name returns 2xx, `createOrGetProject` returns the
fetched existing project and surfaces no error. -/
theorem spec_C7 (create get : ApiResp Project) (h409 : create.status = 409)
    (h1 : 200 ≤ get.status) (h2 : get.status < 300) :
    createOrGetProject create get = .ok get.json := by
  have hc : respOk create = false := by
    simp [respOk, h409]
  have hg : respOk get = true := by
    unfold respOk
    rw [decide_eq_true_eq]
    exact ⟨h1, h2⟩
  simp [createOrGetProject, hc, hg, h409]

/-- Witness for claim C7: a 409 creation followed by a 200 fetch. -/
theorem spec_C7_witness : createOrGetProject crConflictEx grOkEx = .ok grOkEx.json :=
  spec_C7 crConflictEx grOkEx rfl (by decide) (by decide)

/-- Claim C8: the deployment payload holds exactly one file entry —
`index.html`, base64-encoding of the generated page, encoding
`base64` — targets production, carries the resolved project's id, and
configures no build, output or install command. -/
theorem spec_C8 (p : Project) (siteName dateStr : String) :
    (deploymentPayload p siteName dateStr).files.length = 1 ∧
    (deploymentPayload p siteName dateStr).files =
      [{ file := "index.html",
         data := ⟨base64Encode (utf8Str (htmlContent siteName p.name dateStr))⟩,
         encoding := "base64" }] ∧
    (deploymentPayload p siteName dateStr).target = "production" ∧
    (deploymentPayload p siteName dateStr).project = p.id ∧
    (deploymentPayload p siteName dateStr).buildCommand = none ∧
    (deploymentPayload p siteName dateStr).outputDirectory = none ∧
    (deploymentPayload p siteName dateStr).installCommand = none :=
  ⟨rfl, rfl, rfl, rfl, rfl, rfl, rfl⟩

/-- Counterexample to claim C3: a request whose `projectName` is a
single space — empty after trimming — is not rejected; the handler runs
the remote steps and answers with success (the validation is a mere
falsiness check that never trims). -/
theorem spec_C3_counterexample :
    (handler envWSEx).success = some true ∧ (handler envWSEx).status = 200 :=
  ⟨rfl, rfl⟩

/-- Claim C3 as amended: a request whose `projectName` is absent or the
empty string is rejected with the validation failure (status 400,
`success: false`, `Project name is required`) for every choice of
remote-oracle responses, i.e. before any network call; whitespace-only
names are not rejected. -/
theorem spec_C3 (env : Env) (hm : env.method = "POST")
    (ht : jsFalsy env.token = false)
    (hct : containsSub "multipart/form-data".data env.contentType.data = true)
    (hpn : jsFalsy env.projectName = true) :
    handler env = { blankResp 400 with success := some false, error := some nameRequiredMsg } := by
  simp [handler, hm, ht, hct, hpn,
    show ("POST" : String) ≠ "OPTIONS" from by decide]

/-- Witness for the amended claim C3 at a concrete request with an
empty project name. -/
theorem spec_C3_witness :
    handler { envWSEx with projectName := some "" }
      = { blankResp 400 with success := some false, error := some nameRequiredMsg } :=
  spec_C3 { envWSEx with projectName := some "" } rfl rfl (by decide) rfl

/-- Claim C9: for every POST request, the handler's answer is either the
full success shape, or `success: false` with an `error` string that is
exactly the message of a failing step (configuration, content type,
validation, project resolution, deployment submission, or polling);
no failure escapes unshaped. -/
theorem spec_C9 (env : Env) (hm : env.method = "POST") :
    ((handler env).success = some true ∧ (handler env).error = none) ∨
    (∃ m, (handler env).success = some false ∧ (handler env).error = some m ∧
      StepFailure env m) := by
  have hne1 : ("POST" : String) ≠ "OPTIONS" := by decide
  by_cases ht : jsFalsy env.token = true
  · right
    refine ⟨tokenMsg, ?_, ?_, .config ht⟩ <;>
      simp [handler, hm, hne1, ht, errResp, blankResp]
  · by_cases hct : containsSub "multipart/form-data".data env.contentType.data = true
    · by_cases hpn : jsFalsy env.projectName = true
      · right
        refine ⟨nameRequiredMsg, ?_, ?_, .validation hpn⟩ <;>
          simp [handler, hm, hne1, ht, hct, hpn, blankResp]
      · rcases hpr : createOrGetProject env.createResp env.getResp with m | project
        · right
          refine ⟨m, ?_, ?_, .projectStep m hpr⟩ <;>
            simp [handler, hm, hne1, ht, hct, hpn, hpr, errResp, blankResp]
        · rcases hdp : createDeployment env.deployResp with m | deployment
          · right
            refine ⟨m, ?_, ?_, .deployStep m hdp⟩ <;>
              simp [handler, hm, hne1, ht, hct, hpn, hpr, hdp, errResp, blankResp]
          · rcases hw : (waitForDeploymentReady deployment.url env.polls).1 with m | u
            · right
              refine ⟨m, ?_, ?_, .pollStep deployment m hdp hw⟩ <;>
                simp [handler, hm, hne1, ht, hct, hpn, hpr, hdp, hw, errResp, blankResp]
            · left
              constructor <;>
                simp [handler, hm, hne1, ht, hct, hpn, hpr, hdp, hw]
    · right
      have hct' : containsSub "multipart/form-data".data env.contentType.data = false :=
        Bool.eq_false_iff.mpr hct
      refine ⟨contentTypeMsg, ?_, ?_, .badContentType hct'⟩ <;>
        simp [handler, hm, hne1, ht, hct', errResp, blankResp]

/-- Witness for claim C9 at a request with no platform token
configured. -/
theorem spec_C9_witness :
    ((handler { envWSEx with token := none }).success = some true ∧
      (handler { envWSEx with token := none }).error = none) ∨
    (∃ m, (handler { envWSEx with token := none }).success = some false ∧
      (handler { envWSEx with token := none }).error = some m ∧
      StepFailure { envWSEx with token := none } m) :=
  spec_C9 { envWSEx with token := none } rfl
